import Mathlib

/-!
Verification of the layout and rendering engine of the gyomukanri report
generators (`accident_report_generator.py` and `hiyari_hatto_generator.py`).

All geometry is embedded over `ℚ` in ReportLab's native unit (points).
The source obtains `mm` from `reportlab.lib.units`, where
`mm = 72 / 25.4 = 360 / 127` points, and converts CSS pixels with the
literal factor `0.264583` (mm per px).  Both constants are kept exact.
-/

/-- Points per millimetre, as defined by `reportlab.lib.units.mm` (72 / 25.4). -/
def mmUnit : ℚ := 360 / 127

/-- Millimetres per CSS pixel; the literal `0.264583` used throughout both sources. -/
def px_factor : ℚ := 0.264583

/-- `px_to_mm` from both generators: `px_value * 0.264583 * mm` (a value in points). -/
def px_to_mm (px_value : ℚ) : ℚ := px_value * px_factor * mmUnit

/-- A4 page width in points (`210 mm`), from `reportlab.lib.pagesizes.A4`. -/
def page_width : ℚ := 210 * mmUnit

/-- A4 page height in points (`297 mm`), from `reportlab.lib.pagesizes.A4`. -/
def page_height : ℚ := 297 * mmUnit

/-! ## Checklist geometry

Both generators draw the 12-item cause checklist with the same code:
`vertical_padding = 3 * mm`, `first_item_y = checklist_top - vertical_padding`,
`last_item_y = checklist_bottom + vertical_padding`,
`item_spacing = (first_item_y - last_item_y) / 11`, and item `i` (1-based) at
`first_item_y - (i - 1) * item_spacing`.
-/

/-- The `vertical_padding = 3 * mm` of the checklist band, identical in both sources. -/
def vertical_padding : ℚ := 3 * mmUnit

/-- `first_item_y`: y-position of checklist item 1, from the band top. -/
def first_item_y (top : ℚ) : ℚ := top - vertical_padding

/-- `last_item_y`: y-position of checklist item 12, from the band bottom. -/
def last_item_y (bottom : ℚ) : ℚ := bottom + vertical_padding

/-- `item_spacing = total_spacing / 11`, the even spacing between consecutive items. -/
def item_spacing (top bottom : ℚ) : ℚ := (first_item_y top - last_item_y bottom) / 11

/-- `item_y = first_item_y - (i - 1) * item_spacing` for the 1-based item index `i`. -/
def item_y (top bottom : ℚ) (i : ℕ) : ℚ :=
  first_item_y top - ((i : ℚ) - 1) * item_spacing top bottom

/-- One drawn checklist mark: its 1-based index, baseline y, and fill state. -/
structure DrawnCircle where
  index : ℕ
  y : ℚ
  filled : Bool
deriving DecidableEq, Repr

/-- The loop `for i in range(1, 13)` shared by both generators: draw item `i` at
`item_y`, filled exactly when `i in selected`. -/
def checklist_ops (selected : List ℕ) (top bottom : ℚ) : List DrawnCircle :=
  (List.range 12).map fun k =>
    ⟨k + 1, item_y top bottom (k + 1), selected.contains (k + 1)⟩

/-- The accident generator guards the whole checklist pass with
`if selected_cause_indices:` — an empty selection list draws nothing at all. -/
def accident_checklist_ops (selected : List ℕ) (top bottom : ℚ) : List DrawnCircle :=
  if selected = [] then [] else checklist_ops selected top bottom

/-- The hiyari generator draws the checklist unconditionally. -/
def hh_checklist_ops (selected : List ℕ) (top bottom : ℚ) : List DrawnCircle :=
  checklist_ops selected top bottom

/-! ## Height allocation

The accident generator fixes `available_height = 120 * mm` and splits it in the
fixed proportion 5 : 3 : 3 : 2 (`unit_height = available_height / 13`).
The hiyari generator sizes its one flexible table by
`target = min(106*mm, remaining - 2*mm)`; `h = max(target, required)`;
`h = min(h, remaining - 2*mm)`.
-/

/-- `available_height = 120 * mm` (accident generator, line 616). -/
def available_height : ℚ := 120 * mmUnit

/-- `unit_height = available_height / 13` (accident generator, line 617). -/
def unit_height : ℚ := available_height / 13

/-- `body_row_heights = [5, 3, 3, 2] * unit_height` (accident generator, lines 618–623). -/
def body_row_heights : List ℚ :=
  [unit_height * 5, unit_height * 3, unit_height * 3, unit_height * 2]

/-- The hiyari table-height computation (lines 439–451), as a function of the
remaining page height and the checklist's computed required height. -/
def table_height_policy (remaining required : ℚ) : ℚ :=
  min (max (min (106 * mmUnit) (remaining - 2 * mmUnit)) required) (remaining - 2 * mmUnit)

/-- Modelled from the spec's words, for comparison with the code: the claimed
`HeightBudgetSolver.allocate` policy — use targets when they fit, otherwise
scale every extra (target − min) by a common ratio so the sum equals the
available height.  This definition follows the spec, not the source, which
implements no such solver. -/
def allocate_spec (sections : List (ℚ × ℚ)) (avail : ℚ) : List ℚ :=
  let sumT := (sections.map Prod.snd).sum
  if sumT ≤ avail then sections.map Prod.snd
  else
    let sumM := (sections.map Prod.fst).sum
    let ratio := (avail - sumM) / (sumT - sumM)
    sections.map fun s => s.1 + (s.2 - s.1) * ratio

/-! ## Hiyari-hatto vertical layout pipeline

The y-cursor of `HiyariHattoGenerator.generate_report`, top to bottom.  Every
block above the final countermeasure table has a fixed height except the cause
table's auto-sized header row, whose wrapped height (a ReportLab `wrapOn`
result) enters as the parameter `chh`.
-/

/-- Hiyari top margin, `20 * mm`. -/
def hh_margin_top : ℚ := 20 * mmUnit

/-- Hiyari bottom margin, `20 * mm`. -/
def hh_margin_bottom : ℚ := 20 * mmUnit

/-- `start_y = height - margin_top`. -/
def hh_start_y : ℚ := page_height - hh_margin_top

/-- `title_y = current_y - 10.6 * mm`. -/
def hh_title_y : ℚ := hh_start_y - 10.6 * mmUnit

/-- Cursor after the title block (`title_y - 10.6 * mm`). -/
def hh_cy_title : ℚ := hh_title_y - 10.6 * mmUnit

/-- `reporter_y = current_y - 2 * mm`. -/
def hh_reporter_y : ℚ := hh_cy_title - 2 * mmUnit

/-- Cursor after the reporter line (`reporter_y - 3 * mm`). -/
def hh_cy_reporter : ℚ := hh_reporter_y - 3 * mmUnit

/-- Y of the 【概要】 section label (cursor minus `6.6 * mm`). -/
def hh_summary_label_y : ℚ := hh_cy_reporter - 6.6 * mmUnit

/-- Cursor below the 【概要】 label (label minus `3 * mm`). -/
def hh_cy_summary_label : ℚ := hh_summary_label_y - 3 * mmUnit

/-- Summary table height: fixed rows `12 + 26.5 + 26.5` mm. -/
def hh_summary_h : ℚ := (12 + 26.5 + 26.5) * mmUnit

/-- `summary_table_y = current_y - summary_h`. -/
def hh_summary_table_y : ℚ := hh_cy_summary_label - hh_summary_h

/-- Cursor after the summary table (`summary_table_y - 5 * mm`). -/
def hh_cy_summary : ℚ := hh_summary_table_y - 5 * mmUnit

/-- Y of the 【原因】 section label. -/
def hh_cause_label_y : ℚ := hh_cy_summary - 6.6 * mmUnit

/-- Cursor below the 【原因】 label. -/
def hh_cy_cause_label : ℚ := hh_cause_label_y - 3 * mmUnit

/-- Cause table height: auto-sized header row (`chh`) plus the fixed `31.8` mm data row. -/
def hh_cause_h (chh : ℚ) : ℚ := chh + 31.8 * mmUnit

/-- `cause_table_y = current_y - cause_h`. -/
def hh_cause_table_y (chh : ℚ) : ℚ := hh_cy_cause_label - hh_cause_h chh

/-- Cursor after the cause table (`cause_table_y - 5 * mm`). -/
def hh_cy_cause (chh : ℚ) : ℚ := hh_cause_table_y chh - 5 * mmUnit

/-- Y of the ⇩ arrow (cursor minus `3 * mm`). -/
def hh_arrow_y (chh : ℚ) : ℚ := hh_cy_cause chh - 3 * mmUnit

/-- Cursor after the arrow (`arrow_y - 5 * mm`). -/
def hh_cy_arrow (chh : ℚ) : ℚ := hh_arrow_y chh - 5 * mmUnit

/-- Y of the 【教訓・対策】 section label. -/
def hh_countermeasure_label_y (chh : ℚ) : ℚ := hh_cy_arrow chh - 6.6 * mmUnit

/-- Cursor below the 【教訓・対策】 label. -/
def hh_cy_countermeasure_label (chh : ℚ) : ℚ := hh_countermeasure_label_y chh - 3 * mmUnit

/-- `remaining_height = current_y - self.margin_bottom` (line 437). -/
def hh_remaining_height (chh : ℚ) : ℚ := hh_cy_countermeasure_label chh - hh_margin_bottom

/-- Checklist font size `9.75` pt (line 444). -/
def hh_font_size_pt : ℚ := 9.75

/-- Checklist line spacing `2.1 * mm` (line 445). -/
def hh_line_spacing : ℚ := 2.1 * mmUnit

/-- `font_height = font_size_pt * 0.352778` (line 446).  The source multiplies by
the pt→mm factor but not by the `mm` unit constant, so the value is a bare
number; the embedding reproduces it as written. -/
def hh_font_height : ℚ := hh_font_size_pt * 0.352778

/-- `checklist_required_height = 12 * (font_height + line_spacing) - line_spacing + 10 * mm`. -/
def checklist_required_height : ℚ :=
  12 * (hh_font_height + hh_line_spacing) - hh_line_spacing + 10 * mmUnit

/-- The hiyari countermeasure-table height (lines 439–451). -/
def hh_table_height (chh : ℚ) : ℚ :=
  table_height_policy (hh_remaining_height chh) checklist_required_height

/-- `countermeasure_table_y = current_y - countermeasure_h`. -/
def hh_countermeasure_table_y (chh : ℚ) : ℚ :=
  hh_cy_countermeasure_label chh - hh_table_height chh

/-- Result of a render call: the source either returns the written filename or
would raise; it contains no structured-error return path. -/
inductive RenderOutcome where
  | ok : String → RenderOutcome
  | error : String → RenderOutcome
deriving DecidableEq, Repr

/-- The control flow of `HiyariHattoGenerator.generate_report`: it draws every
block in order, saves, and returns the filename unconditionally — there is no
feasibility check and no error return.  The trace records each drawn block's
name and top-level y-position. -/
def hh_generate_result (chh : ℚ) : RenderOutcome × List (String × ℚ) :=
  (RenderOutcome.ok "ヒヤリハット報告書.pdf",
   [("title", hh_title_y), ("reporter", hh_reporter_y),
    ("summary", hh_summary_table_y), ("cause", hh_cause_table_y chh),
    ("arrow", hh_arrow_y chh), ("countermeasure", hh_countermeasure_table_y chh)])

/-! ## Vertical text (`AccidentReportGenerator.draw_vertical_text`)

`char_spacing = 5 * 0.264583 * mm`;
`total_height = len(text) * (font_size + char_spacing) - char_spacing`;
`start_y = center_y + total_height / 2 - font_size`;
character `i` is drawn after translating to `(center_x, start_y - i * (font_size
+ char_spacing))`, rotating 90°, at x-offset `-char_width / 2`.
-/

/-- `char_spacing = 5 * 0.264583 * mm` (line 204). -/
def char_spacing : ℚ := 5 * px_factor * mmUnit

/-- `total_height = len(text) * (font_size + char_spacing) - char_spacing` (line 207). -/
def vt_total_height (len : ℕ) (font_size : ℚ) : ℚ :=
  len * (font_size + char_spacing) - char_spacing

/-- `start_y = center_y + total_height / 2 - font_size` (line 210). -/
def vt_start_y (center_y : ℚ) (len : ℕ) (font_size : ℚ) : ℚ :=
  center_y + vt_total_height len font_size / 2 - font_size

/-- `char_y = start_y - i * (font_size + char_spacing)` for the 0-based index `i` (line 214). -/
def vt_char_y (center_y : ℚ) (len : ℕ) (font_size : ℚ) (i : ℕ) : ℚ :=
  vt_start_y center_y len font_size - i * (font_size + char_spacing)

/-- `center_x = x + width / 2` (line 200). -/
def cell_center_x (x width : ℚ) : ℚ := x + width / 2

/-- `center_y = y + height / 2` (line 201). -/
def cell_center_y (y height : ℚ) : ℚ := y + height / 2

/-- One per-character drawing step of `draw_vertical_text`: translation target,
rotation angle, and the x-offset passed to `drawString`. -/
structure VTCharDraw where
  pos : ℕ
  translate_x : ℚ
  translate_y : ℚ
  rotation : ℚ
  draw_x : ℚ
deriving DecidableEq, Repr

/-- The drawing loop of `draw_vertical_text` (lines 213–223), over the widths of
the characters of the text: each character is translated to
`(center_x, char_y)`, rotated 90°, and drawn shifted left by half its width. -/
def draw_vertical_text (char_widths : List ℚ) (center_x center_y font_size : ℚ) :
    List VTCharDraw :=
  (List.range char_widths.length).map fun i =>
    ⟨i, center_x, vt_char_y center_y char_widths.length font_size i, 90,
     -(char_widths.getD i 0) / 2⟩

/-! ## Input data resolution (`AccidentReportGenerator.generate`, lines 373–395 etc.)

Every field is read with `data.get(key, default)`; absent keys never raise.
-/

/-- The filesystem/registry environment the constructor probes: whether a font
file exists, whether registering it succeeds, and whether the CID fallback
fonts register. -/
structure FontEnv where
  file_found : String → Bool
  register_ok : String → Bool
  cid_ok : Bool

/-- The accident generator's mincho candidates (lines 52–55). -/
def mincho_fonts : List (String × String) :=
  [("NotoSansJP", "/Library/Fonts/NotoSansJP-VariableFont_wght.ttf"),
   ("HiraginoMincho", "/System/Library/Fonts/ヒラギノ明朝 ProN.ttc")]

/-- The accident generator's gothic candidates (lines 58–62). -/
def gothic_fonts : List (String × String) :=
  [("NotoGothic", "/Library/Fonts/NotoSansJP-VariableFont_wght.ttf"),
   ("HiraginoGothic", "/System/Library/Fonts/ヒラギノ角ゴシック W5.ttc"),
   ("HiraginoGothicW3", "/System/Library/Fonts/ヒラギノ角ゴシック W3.ttc")]

/-- The hiyari generator's mincho candidates (lines 56–59). -/
def hh_mincho_fonts : List (String × String) :=
  [("HiraginoMincho", "/System/Library/Fonts/ヒラギノ明朝 ProN.ttc"),
   ("NotoSansJP", "/Library/Fonts/NotoSansJP-VariableFont_wght.ttf")]

/-- The hiyari generator's gothic candidates (lines 62–66). -/
def hh_gothic_fonts : List (String × String) :=
  [("HiraginoGothic", "/System/Library/Fonts/ヒラギノ角ゴシック W5.ttc"),
   ("HiraginoGothicW3", "/System/Library/Fonts/ヒラギノ角ゴシック W3.ttc"),
   ("NotoGothic", "/Library/Fonts/NotoSansJP-VariableFont_wght.ttf")]

/-- One candidate loop: bind the first `(name, path)` whose file exists and
whose registration succeeds; `none` when the loop falls through. -/
def try_register_fonts (env : FontEnv) : List (String × String) → Option String
  | [] => none
  | c :: rest =>
    if env.file_found c.2 && env.register_ok c.2 then some c.1
    else try_register_fonts env rest

/-- The whole constructor font logic: run both loops; if the mincho loop bound
nothing (`font_registered` stayed false) the fallback overwrites both roles
with the CID pair or Helvetica.  The second component is `none` exactly when
`self.font_bold` is never assigned. -/
def resolve_fonts (env : FontEnv) (mincho gothic : List (String × String)) :
    Option String × Option String :=
  match try_register_fonts env mincho with
  | some reg => (some reg, try_register_fonts env gothic)
  | none =>
    if env.cid_ok then (some "HeiseiMin-W3-Acro", some "HeiseiKakuGo-W5-Acro")
    else (some "Helvetica", some "Helvetica-Bold")

/-- An environment on which the mincho loop succeeds (only the Hiragino Mincho
file is present) while every gothic candidate fails. -/
def mincho_only_env : FontEnv :=
  ⟨fun p => p == "/System/Library/Fonts/ヒラギノ明朝 ProN.ttc", fun _ => true, true⟩

/-! ## Dates and times (`HiyariHattoGenerator.generate_report`, lines 260–286;
`AccidentReportGenerator.format_date_for_report`, lines 818–835) -/

/-- `reiwa_year = dt.year - 2018` (line 270); no guard for years before 2019. -/
def reiwa_year (y : ℕ) : ℤ := (y : ℤ) - 2018

/-- `am_pm = "午前" if dt.hour < 12 else "午後"` (line 273). -/
def am_pm (h : ℕ) : String := if h < 12 then "午前" else "午後"

/-- `hour = dt.hour % 12 if dt.hour % 12 != 0 else 12` (line 274). -/
def display_hour (h : ℕ) : ℕ := if h % 12 ≠ 0 then h % 12 else 12

/-- `minute_formatted = f"{minute:02d}"` (line 285): two digits, zero-padded. -/
def minute_formatted (m : ℕ) : String :=
  if m < 10 then "0" ++ toString m else toString m

/-- The millimetre unit constant is positive. -/
theorem mmUnit_pos : (0 : ℚ) < mmUnit := by norm_num [mmUnit]

/-- The vertical-text character spacing is positive. -/
theorem char_spacing_pos : (0 : ℚ) < char_spacing := by
  norm_num [char_spacing, px_factor, mmUnit]

/-- A point between two values of an interval lies in the interval. -/
theorem convex_mem {lo hi a b t : ℚ} (ha1 : lo ≤ a) (ha2 : a ≤ hi) (hb1 : lo ≤ b)
    (hb2 : b ≤ hi) (ht0 : 0 ≤ t) (ht1 : t ≤ 1) :
    lo ≤ a + t * (b - a) ∧ a + t * (b - a) ≤ hi := by
  constructor <;> nlinarith

/-- At a cause-header height of 150 pt the checklist's computed required height
no longer fits in the remaining band minus the 2 mm reserve. -/
theorem hh_infeasible_at_150 :
    hh_remaining_height 150 - 2 * mmUnit < checklist_required_height := by
  norm_num [hh_remaining_height, hh_cy_countermeasure_label, hh_countermeasure_label_y,
    hh_cy_arrow, hh_arrow_y, hh_cy_cause, hh_cause_table_y, hh_cause_h, hh_cy_cause_label,
    hh_cause_label_y, hh_cy_summary, hh_summary_table_y, hh_summary_h, hh_cy_summary_label,
    hh_summary_label_y, hh_cy_reporter, hh_reporter_y, hh_cy_title, hh_title_y, hh_start_y,
    page_height, hh_margin_top, hh_margin_bottom, checklist_required_height, hh_font_height,
    hh_font_size_pt, hh_line_spacing, mmUnit]

/-- C2 counterexample: with a cause-header height of 150 pt the checklist's
computed minimum height exceeds the height remaining above the bottom margin
(minus the 2 mm reserve), yet `generate_report` performs no check: it reports
no error, draws all six blocks, and clamps the table below the checklist's
required height — refuting the claim that an infeasible layout is detected
before drawing and returned as a structured error. -/
theorem C2_counterexample :
    hh_remaining_height 150 - 2 * mmUnit < checklist_required_height ∧
    (hh_generate_result 150).1 = RenderOutcome.ok "ヒヤリハット報告書.pdf" ∧
    (hh_generate_result 150).2.length = 6 ∧
    hh_table_height 150 < checklist_required_height := by
  have h2 : hh_table_height 150 ≤ hh_remaining_height 150 - 2 * mmUnit :=
    min_le_right _ _
  exact ⟨hh_infeasible_at_150, rfl, rfl, lt_of_le_of_lt h2 hh_infeasible_at_150⟩

/-- C2 (amended): the render never detects layout infeasibility and never
returns an error; for every cause-header height it draws all blocks and
returns the filename, clamping the final table to the remaining height minus
2 mm (silently below the checklist's required height when that does not fit),
which keeps the final table's top edge at least 2 mm above the bottom margin. -/
theorem C2_render_never_errors (chh : ℚ) :
    (hh_generate_result chh).1 = RenderOutcome.ok "ヒヤリハット報告書.pdf" ∧
    (hh_generate_result chh).2.length = 6 ∧
    hh_table_height chh ≤ hh_remaining_height chh - 2 * mmUnit ∧
    (hh_remaining_height chh - 2 * mmUnit < checklist_required_height →
      hh_table_height chh = hh_remaining_height chh - 2 * mmUnit) ∧
    hh_margin_bottom + 2 * mmUnit ≤ hh_countermeasure_table_y chh := by
  have hle : hh_table_height chh ≤ hh_remaining_height chh - 2 * mmUnit :=
    min_le_right _ _
  refine ⟨rfl, rfl, hle, ?_, ?_⟩
  · intro hlt
    unfold hh_table_height table_height_policy
    exact min_eq_right (le_trans (le_of_lt hlt) (le_max_right _ _))
  · unfold hh_countermeasure_table_y
    unfold hh_remaining_height at hle
    linarith

/-- C2 witness: the amended theorem applied at the concrete cause-header
height 150 pt, where the clamping branch is exercised. -/
theorem C2_render_never_errors_witness :
    hh_remaining_height 150 - 2 * mmUnit < checklist_required_height ∧
    hh_table_height 150 = hh_remaining_height 150 - 2 * mmUnit :=
  ⟨hh_infeasible_at_150, (C2_render_never_errors 150).2.2.2.1 hh_infeasible_at_150⟩

/-- C3 counterexample: four sections with minimum 0 and target 30 mm on the
fixed 120 mm budget satisfy the claimed policy's premise (targets sum to the
available height), so the claimed allocation is the targets themselves; the
accident generator's actual row heights differ — it always allocates the fixed
5 : 3 : 3 : 2 proportions regardless of targets. -/
theorem C3_counterexample :
    allocate_spec
        [(0, 30 * mmUnit), (0, 30 * mmUnit), (0, 30 * mmUnit), (0, 30 * mmUnit)]
        available_height
      = [30 * mmUnit, 30 * mmUnit, 30 * mmUnit, 30 * mmUnit] ∧
    body_row_heights ≠ [30 * mmUnit, 30 * mmUnit, 30 * mmUnit, 30 * mmUnit] := by
  constructor
  · norm_num [allocate_spec, available_height, mmUnit]
  · intro hEq
    have h0 : unit_height * 5 = 30 * mmUnit := by
      have := congrArg (fun l => l.headD 0) hEq
      simpa [body_row_heights] using this
    rw [unit_height, available_height, mmUnit] at h0
    norm_num at h0

/-- C3 (amended): neither generator implements the claimed min/target scaling
policy.  The accident generator splits its fixed `available_height` in the
constant proportion 5 : 3 : 3 : 2, so the row heights always sum exactly to
`available_height` and are independent of any per-section targets; the hiyari
generator's one flexible table receives
`min(max(min(106mm, remaining − 2mm), required), remaining − 2mm)`, which
never exceeds `remaining − 2mm` and is at least `required` whenever
`required` fits. -/
theorem C3_fixed_allocation :
    body_row_heights.sum = available_height ∧
    (∀ remaining required : ℚ,
      table_height_policy remaining required ≤ remaining - 2 * mmUnit ∧
      (required ≤ remaining - 2 * mmUnit →
        required ≤ table_height_policy remaining required)) := by
  constructor
  · show unit_height * 5 + (unit_height * 3 + (unit_height * 3 + (unit_height * 2 + 0)))
        = available_height
    unfold unit_height
    ring
  · intro remaining required
    refine ⟨min_le_right _ _, fun hfit => le_min (le_max_right _ _) hfit⟩

/-- C3 witness: the hiyari clamp applied at remaining = 300 pt with a required
height of 100 pt, which fits below `remaining − 2 mm`. -/
theorem C3_fixed_allocation_witness :
    (100 : ℚ) ≤ 300 - 2 * mmUnit ∧ (100 : ℚ) ≤ table_height_policy 300 100 :=
  ⟨by norm_num [mmUnit], ((C3_fixed_allocation.2 300 100).2) (by norm_num [mmUnit])⟩

/-- C4 counterexample: in the accident generator an empty selection set draws
no checklist at all (the pass is guarded by `if selected_cause_indices:`), so
the claim that all 12 items render with unfilled circles when S = ∅ fails. -/
theorem C4_counterexample :
    accident_checklist_ops [] 200 100 = [] ∧
    (accident_checklist_ops [] 200 100).length ≠ 12 := by
  constructor <;> decide

/-- C4 (amended): the hiyari generator always renders the checklist: for every
selection set it draws exactly the 12 items 1..12, an item's circle filled
exactly when its index is selected; the accident generator produces the same
drawing whenever the selection is non-empty, but draws nothing when the
selection is empty. -/
theorem C4_fill_state (selected : List ℕ) (top bottom : ℚ) :
    (hh_checklist_ops selected top bottom).length = 12 ∧
    (hh_checklist_ops selected top bottom).map DrawnCircle.index
      = [1, 2, 3, 4, 5, 6, 7, 8, 9, 10, 11, 12] ∧
    (∀ d ∈ hh_checklist_ops selected top bottom, (d.filled = true ↔ d.index ∈ selected)) ∧
    (selected ≠ [] →
      accident_checklist_ops selected top bottom = hh_checklist_ops selected top bottom) ∧
    accident_checklist_ops [] top bottom = [] := by
  refine ⟨?_, ?_, ?_, ?_, ?_⟩
  · simp [hh_checklist_ops, checklist_ops]
  · simp [hh_checklist_ops, checklist_ops, List.map_map]
    rfl
  · intro d hd
    simp only [hh_checklist_ops, checklist_ops, List.mem_map, List.mem_range] at hd
    obtain ⟨k, hk, rfl⟩ := hd
    show selected.contains (k + 1) = true ↔ k + 1 ∈ selected
    exact List.elem_iff
  · intro hne
    simp [accident_checklist_ops, hh_checklist_ops, hne]
  · simp [accident_checklist_ops]

/-- C4 witness: the amended theorem applied to the selection {1, 6, 12}. -/
theorem C4_fill_state_witness :
    ([1, 6, 12] : List ℕ) ≠ [] ∧
    accident_checklist_ops [1, 6, 12] 300 100 = hh_checklist_ops [1, 6, 12] 300 100 :=
  ⟨by decide, (C4_fill_state [1, 6, 12] 300 100).2.2.2.1 (by decide)⟩

/-- C5 counterexample: on a band with top = 1 pt and bottom = 0 (a genuine band
of positive height, but shorter than the 3 mm padding) checklist item 1 is
placed below the band bottom, refuting the claim that all 12 items lie inside
the band for every position of the band bounds. -/
theorem C5_counterexample : (0 : ℚ) < 1 ∧ item_y 1 0 1 < 0 := by
  constructor
  · norm_num
  · norm_num [item_y, first_item_y, last_item_y, item_spacing, vertical_padding, mmUnit]

/-- C5 (amended): item i is placed at `first_item_y − (i−1) · item_spacing`
with `item_spacing = (first_item_y − last_item_y) / (12 − 1)`, the gap between
consecutive items is the constant `item_spacing`, items 1 and 12 sit exactly
at `first_item_y` and `last_item_y`, and all items lie inside the band
provided the band height is at least the 3 mm vertical padding. -/
theorem C5_even_spacing (top bottom : ℚ) (i : ℕ) (h1 : 1 ≤ i) (h2 : i ≤ 12) :
    item_y top bottom i
      = first_item_y top
        - ((i : ℚ) - 1) * ((first_item_y top - last_item_y bottom) / (12 - 1)) ∧
    item_y top bottom i - item_y top bottom (i + 1) = item_spacing top bottom ∧
    item_y top bottom 1 = first_item_y top ∧
    item_y top bottom 12 = last_item_y bottom ∧
    (3 * mmUnit ≤ top - bottom →
      bottom ≤ item_y top bottom i ∧ item_y top bottom i ≤ top) := by
  refine ⟨?_, ?_, ?_, ?_, ?_⟩
  · norm_num [item_y, item_spacing]
  · unfold item_y
    push_cast
    ring
  · unfold item_y
    norm_num
  · unfold item_y item_spacing first_item_y last_item_y vertical_padding
    push_cast
    ring
  · intro hband
    have hi1 : (1 : ℚ) ≤ (i : ℚ) := by exact_mod_cast h1
    have hi2 : (i : ℚ) ≤ 12 := by exact_mod_cast h2
    have hrepr : item_y top bottom i
        = first_item_y top
          + (((i : ℚ) - 1) / 11) * (last_item_y bottom - first_item_y top) := by
      unfold item_y item_spacing
      ring
    rw [hrepr]
    refine convex_mem ?_ ?_ ?_ ?_ ?_ ?_
    · unfold first_item_y vertical_padding
      linarith
    · unfold first_item_y vertical_padding
      nlinarith [mmUnit_pos]
    · unfold last_item_y vertical_padding
      nlinarith [mmUnit_pos]
    · unfold last_item_y vertical_padding
      linarith
    · have : (0 : ℚ) ≤ (i : ℚ) - 1 := by linarith
      positivity
    · rw [div_le_one (by norm_num : (0:ℚ) < 11)]
      linarith

/-- C5 witness: the amended theorem applied to item 6 on the band
top = 300 pt, bottom = 100 pt (height well above 3 mm). -/
theorem C5_even_spacing_witness :
    item_y 300 100 6 - item_y 300 100 7 = item_spacing 300 100 ∧
    (100 : ℚ) ≤ item_y 300 100 6 :=
  ⟨(C5_even_spacing 300 100 6 (by decide) (by decide)).2.1,
   ((C5_even_spacing 300 100 6 (by decide) (by decide)).2.2.2.2 (by norm_num [mmUnit])).1⟩

/-- C6: for text of length L, font size F and the fixed character spacing C,
`draw_vertical_text` produces a block of total height exactly L·(F+C) − C,
vertically centred in the cell (top of the block and bottom character baseline
are equidistant from the cell centre), with the characters laid out in string
order top to bottom, each rotated 90° about the translated origin at the cell
centre line and shifted left by half its own width. -/
theorem C6_vertical_text (char_widths : List ℚ) (x y w h font_size : ℚ)
    (hF : 0 < font_size) (hne : char_widths ≠ []) :
    (vt_char_y (cell_center_y y h) char_widths.length font_size 0 + font_size)
        - vt_char_y (cell_center_y y h) char_widths.length font_size
            (char_widths.length - 1)
      = vt_total_height char_widths.length font_size ∧
    (vt_char_y (cell_center_y y h) char_widths.length font_size 0 + font_size)
        - cell_center_y y h
      = cell_center_y y h
        - vt_char_y (cell_center_y y h) char_widths.length font_size
            (char_widths.length - 1) ∧
    (∀ i j : ℕ, i < j → j < char_widths.length →
      vt_char_y (cell_center_y y h) char_widths.length font_size j
        < vt_char_y (cell_center_y y h) char_widths.length font_size i) ∧
    (∀ p ∈ draw_vertical_text char_widths (cell_center_x x w) (cell_center_y y h)
        font_size,
      p.rotation = 90 ∧ p.translate_x = cell_center_x x w ∧
      p.translate_y = vt_char_y (cell_center_y y h) char_widths.length font_size p.pos ∧
      p.draw_x = -(char_widths.getD p.pos 0) / 2) := by
  have hL : 1 ≤ char_widths.length := List.length_pos.mpr hne
  have hcast : ((char_widths.length - 1 : ℕ) : ℚ) = (char_widths.length : ℚ) - 1 := by
    rw [Nat.cast_sub hL]
    norm_num
  refine ⟨?_, ?_, ?_, ?_⟩
  · unfold vt_char_y vt_start_y vt_total_height
    rw [hcast]
    ring
  · unfold vt_char_y vt_start_y vt_total_height
    rw [hcast]
    ring
  · intro i j hij hjL
    unfold vt_char_y
    have hijQ : (i : ℚ) < (j : ℚ) := by exact_mod_cast hij
    nlinarith [char_spacing_pos]
  · intro p hp
    simp only [draw_vertical_text, List.mem_map, List.mem_range] at hp
    obtain ⟨i, hi, rfl⟩ := hp
    exact ⟨rfl, rfl, rfl, rfl⟩

/-- C6 witness: the block-height equation of the vertical-text theorem at a
three-character text with font size 11 in a 100 × 200 cell. -/
theorem C6_vertical_text_witness :
    (vt_char_y (cell_center_y 0 200) ([12, 8, 10] : List ℚ).length 11 0 + 11)
        - vt_char_y (cell_center_y 0 200) ([12, 8, 10] : List ℚ).length 11
            (([12, 8, 10] : List ℚ).length - 1)
      = vt_total_height ([12, 8, 10] : List ℚ).length 11 :=
  (C6_vertical_text [12, 8, 10] 0 0 100 200 11 (by norm_num) (by simp)).1

/-- C8 counterexample: in an environment where a mincho candidate registers but
every gothic candidate fails, the constructor leaves the bold role unassigned
(`self.font_bold` is never set and the fallback is skipped because
`font_registered` is true), refuting the claim that both role attributes are
always defined after construction. -/
theorem C8_counterexample :
    (resolve_fonts mincho_only_env mincho_fonts gothic_fonts).1 = some "HiraginoMincho" ∧
    (resolve_fonts mincho_only_env mincho_fonts gothic_fonts).2 = none := by
  constructor <;> rfl

/-- C8 (amended): each loop binds its role to the first candidate whose file
exists and registers; the body-font role is always defined (when its loop
fails, the fallback assigns both roles); but the bold role is left undefined
exactly when the body-font loop succeeds and every bold candidate fails — the
fallback is keyed only to the body-font flag, and it overwrites any bold
binding when it does run. -/
theorem C8_font_resolution (env : FontEnv) (mincho gothic : List (String × String)) :
    (resolve_fonts env mincho gothic).1.isSome = true ∧
    ((resolve_fonts env mincho gothic).2 = none ↔
      (try_register_fonts env mincho).isSome = true ∧
        try_register_fonts env gothic = none) ∧
    (∀ l : List (String × String),
      try_register_fonts env l
        = (l.find? fun c => env.file_found c.2 && env.register_ok c.2).map Prod.fst) := by
  have hfind : ∀ l : List (String × String),
      try_register_fonts env l
        = (l.find? fun c => env.file_found c.2 && env.register_ok c.2).map Prod.fst := by
    intro l
    induction l with
    | nil => rfl
    | cons c rest ih =>
      by_cases hc : (env.file_found c.2 && env.register_ok c.2) = true
      · simp [try_register_fonts, List.find?_cons_of_pos, hc]
      · simp [try_register_fonts, List.find?_cons_of_neg, hc, ih]
  refine ⟨?_, ?_, hfind⟩
  · unfold resolve_fonts
    cases htm : try_register_fonts env mincho with
    | some r => simp
    | none => by_cases hc : env.cid_ok <;> simp [hc]
  · unfold resolve_fonts
    cases htm : try_register_fonts env mincho with
    | some r => simp [htm]
    | none => by_cases hc : env.cid_ok <;> simp [hc, htm]

/-- C10: the hiyari summary date line renders the Reiwa year as
`dt.year − 2018` (zero or negative for years before 2019, with no era guard),
the 午前/午後 prefix by `dt.hour < 12`, the displayed hour as `dt.hour % 12`
except that 0 and 12 both display as 12 (always in 1..12), and the minute
zero-padded to exactly two digits. -/
theorem C10_date_line_format (y h m : ℕ) (h24 : h < 24) (m60 : m < 60) :
    display_hour h = (if h = 0 ∨ h = 12 then 12 else h % 12) ∧
    1 ≤ display_hour h ∧ display_hour h ≤ 12 ∧
    (h < 12 → am_pm h = "午前") ∧
    (12 ≤ h → am_pm h = "午後") ∧
    reiwa_year y = (y : ℤ) - 2018 ∧
    (y ≤ 2018 → reiwa_year y ≤ 0) ∧
    (minute_formatted m).length = 2 := by
  refine ⟨?_, ?_, ?_, ?_, ?_, rfl, ?_, ?_⟩
  · unfold display_hour
    by_cases h0 : h % 12 = 0
    · have h012 : h = 0 ∨ h = 12 := by omega
      simp [h0, h012]
    · have h012 : ¬(h = 0 ∨ h = 12) := by omega
      simp [h0, h012]
  · unfold display_hour
    split_ifs <;> omega
  · unfold display_hour
    split_ifs <;> omega
  · intro hlt
    simp [am_pm, hlt]
  · intro hge
    simp [am_pm, Nat.not_lt.mpr hge]
  · intro hy
    unfold reiwa_year
    omega
  · interval_cases m <;> decide

/-- C10 witness: midnight displays as hour 12 and minute 05 renders as two
digits. -/
theorem C10_date_line_format_witness :
    1 ≤ display_hour 0 ∧ (minute_formatted 5).length = 2 :=
  ⟨(C10_date_line_format 2000 0 5 (by decide) (by decide)).2.1,
   (C10_date_line_format 2000 0 5 (by decide) (by decide)).2.2.2.2.2.2.2⟩
